import Mathlib

/-!
A shallow embedding of the simulation core of the Mief game (a Pong variant):
the modules `src/elements/ball.rs`, `src/elements/player.rs` and
`src/elements/field.rs`. Rust `f64` values are modelled as exact rationals
(`ℚ`), `u32` as `ℕ`, and `isize` as `ℤ` together with explicit saturation
bounds at `±2^63`. The hidden thread-local random number generator used by
`Ball::new` is modelled by passing the sampled values in explicitly
(`RngDraws`). Mutating Rust methods become functions returning the updated
value.
-/

namespace Mief

/-- The current status of the ball (`ball.rs`, enum `BallStatus`). -/
inductive BallStatus
  | LeftOnLeftSide
  | LeftOnRightSide
  | WithinGame
deriving DecidableEq

/-- The ball used for playing (`ball.rs`, struct `Ball`). Positions are the
top-left corner of the bounding box, speeds are signed velocity components. -/
structure Ball where
  diameter : ℚ
  position : ℚ × ℚ
  speed : ℚ × ℚ
deriving DecidableEq

/-- The values drawn from `rand::thread_rng()` inside `Ball::new`:
`speedX` and `speedY` are the two `gen_range(100.0, 150.0)` samples, and
`negX`, `negY` the two `gen::<bool>()` samples deciding the sign flips. -/
structure RngDraws where
  speedX : ℚ
  speedY : ℚ
  negX : Bool
  negY : Bool
deriving DecidableEq

/-- `Ball::new` (`ball.rs` lines 48-79): place the ball at the centre of the
window, clamping each coordinate up to `0.0`, and give it the randomly drawn
speed with randomly drawn signs. -/
def Ball.new (window_size : ℕ × ℕ) (rng : RngDraws) : Ball :=
  let width : ℚ := (window_size.1 : ℚ)
  let height : ℚ := (window_size.2 : ℚ)
  let radius : ℚ := 5
  let pos_x : ℚ := width / 2 - radius
  let pos_y : ℚ := height / 2 - radius
  let pos_x := if pos_x < 0 then 0 else pos_x
  let pos_y := if pos_y < 0 then 0 else pos_y
  let speed_x : ℚ := if rng.negX then -rng.speedX else rng.speedX
  let speed_y : ℚ := if rng.negY then -rng.speedY else rng.speedY
  { diameter := radius * 2, position := (pos_x, pos_y), speed := (speed_x, speed_y) }

/-- An axis-aligned bounding box, the `[f64; 4]` arrays
`[left_x, top_y, right_x, bottom_y]` of the source. -/
structure Box where
  left_x : ℚ
  top_y : ℚ
  right_x : ℚ
  bottom_y : ℚ
deriving DecidableEq

/-- `Ball::collide_with` (`ball.rs` lines 133-159): check whether the ball at
`next_position` overlaps the object's horizontal edge band (flip vertical
speed) and/or its lateral edge band (flip horizontal speed). -/
def Ball.collide_with (b : Ball) (next_position : ℚ × ℚ) (object : Box) : Ball :=
  let radius : ℚ := b.diameter / 2
  let x : ℚ := next_position.1
  let y : ℚ := next_position.2
  let b :=
    if x + radius ≥ object.left_x ∧ x + radius ≤ object.right_x ∧
        y + b.diameter ≥ object.top_y ∧ y ≤ object.bottom_y then
      { b with speed := (b.speed.1, b.speed.2 * (-1)) }
    else b
  if y + radius ≥ object.top_y ∧ y + radius ≤ object.bottom_y ∧
      x + b.diameter ≥ object.left_x ∧ x ≤ object.right_x then
    { b with speed := (b.speed.1 * (-1), b.speed.2) }
  else b

/-- `Ball::update` (`ball.rs` lines 90-129): collide with every obstacle at the
tentative next position, then test for an exit on the x-axis (early return,
no move), then reflect on the top/bottom walls, move, and clamp the vertical
position into the window. The returned pair is the updated ball (the mutated
`self`) together with the returned `BallStatus`. -/
def Ball.update (b : Ball) (dt : ℚ) (width height : ℕ) (obstacles : List Box) :
    Ball × BallStatus :=
  let progress_x : ℚ := b.speed.1 * dt
  let progress_y : ℚ := b.speed.2 * dt
  let next_position : ℚ × ℚ := (b.position.1 + progress_x, b.position.2 + progress_y)
  let b := obstacles.foldl (fun acc obstacle => acc.collide_with next_position obstacle) b
  if b.position.1 + progress_x < 0 then
    (b, BallStatus.LeftOnLeftSide)
  else if b.position.1 + b.diameter + progress_x > (width : ℚ) then
    (b, BallStatus.LeftOnRightSide)
  else
    let b : Ball :=
      if b.position.2 + progress_y < 0 ∨ b.position.2 + b.diameter + progress_y > (height : ℚ) then
        { b with speed := (b.speed.1, b.speed.2 * (-1)) }
      else b
    let b : Ball :=
      { b with position := (b.position.1 + b.speed.1 * dt, b.position.2 + b.speed.2 * dt) }
    let b : Ball :=
      if b.position.2 < 0 then
        { b with position := (b.position.1, 0) }
      else if b.position.2 + b.diameter > (height : ℚ) then
        { b with position := (b.position.1, (height : ℚ) - b.diameter) }
      else b
    (b, BallStatus.WithinGame)

/-- Modelled from the spec: `Ball::change_speed` is called by
`Field::on_update` (`field.rs` line 142) but its definition is not among the
available source files. The spec says the periodic speed-up adds "a fixed
increment (10.0) to the ball's speed", i.e. the ball's speed increases by
exactly the given amount on each axis while preserving the direction of
travel. -/
def Ball.change_speed (b : Ball) (amount : ℚ) : Ball :=
  let speed_x : ℚ := if b.speed.1 ≥ 0 then b.speed.1 + amount else b.speed.1 - amount
  let speed_y : ℚ := if b.speed.2 ≥ 0 then b.speed.2 + amount else b.speed.2 - amount
  { b with speed := (speed_x, speed_y) }

/-- The margin between the player's handle and the respective edge of the
field (`player.rs`, `PLAYER_MARGIN`). -/
def PLAYER_MARGIN : ℚ := 10

/-- The player's initial speed (`player.rs`, `SPEED`). -/
def SPEED : ℚ := 150

/-- The direction of the player's movement (`player.rs`, enum `Movement`). -/
inductive Movement
  | Down
  | None
  | Up
deriving DecidableEq

/-- The player's position on the field (`player.rs`, enum `FieldSide`). -/
inductive FieldSide
  | Left
  | Right
deriving DecidableEq

/-- `FieldSide::get_x_position` (`player.rs` lines 64-69). -/
def FieldSide.get_x_position (side : FieldSide) (player_width : ℚ) (field_width : ℕ) : ℚ :=
  match side with
  | FieldSide.Left => PLAYER_MARGIN
  | FieldSide.Right => (field_width : ℚ) - player_width - PLAYER_MARGIN

/-- The largest value of `isize` (64-bit), `2 ^ 63 - 1`. -/
def ISIZE_MAX : ℤ := 9223372036854775807

/-- The smallest value of `isize` (64-bit), `-(2 ^ 63)`. -/
def ISIZE_MIN : ℤ := -9223372036854775808

/-- Rust's `isize::checked_add`: `some` of the sum when it is representable,
`none` on overflow in either direction. -/
def checked_add (a b : ℤ) : Option ℤ :=
  if ISIZE_MIN ≤ a + b ∧ a + b ≤ ISIZE_MAX then some (a + b) else none

/-- The player (`player.rs`, struct `Player`). -/
structure Player where
  field_side : FieldSide
  movement : Movement
  position : ℚ × ℚ
  score : ℤ
  size : ℚ × ℚ
  speed : ℚ
deriving DecidableEq

/-- `Player::new` (`player.rs` lines 96-109). -/
def Player.new (side : FieldSide) (field_width : ℕ) : Player :=
  let size : ℚ × ℚ := (10, 60)
  let y : ℚ := 0
  let x : ℚ := side.get_x_position size.1 field_width
  { field_side := side, movement := Movement.None, position := (x, y),
    score := 0, size := (10, 60), speed := SPEED }

/-- `Player::change_speed` (`player.rs` lines 112-114). -/
def Player.change_speed (p : Player) (amount : ℚ) : Player :=
  { p with speed := p.speed + amount }

/-- `Player::get_bounding_box` (`player.rs` lines 125-132). -/
def Player.get_bounding_box (p : Player) : Box :=
  { left_x := p.position.1, top_y := p.position.2,
    right_x := p.position.1 + p.size.1, bottom_y := p.position.2 + p.size.2 }

/-- `Player::get_score` (`player.rs` lines 135-137). -/
def Player.get_score (p : Player) : ℤ :=
  p.score

/-- `Player::set_movement` (`player.rs` lines 140-142). -/
def Player.set_movement (p : Player) (movement : Movement) : Player :=
  { p with movement := movement }

/-- `Player::update` (`player.rs` lines 145-161): move the handle in the
commanded direction and clamp it into the field. -/
def Player.update (p : Player) (dt : ℚ) (height : ℕ) : Player :=
  match p.movement with
  | Movement.Down =>
    let y : ℚ := p.position.2 + p.speed * dt
    let y := if y + p.size.2 > (height : ℚ) then (height : ℚ) - p.size.2 else y
    { p with position := (p.position.1, y) }
  | Movement.Up =>
    let y : ℚ := p.position.2 - p.speed * dt
    let y := if y < 0 then 0 else y
    { p with position := (p.position.1, y) }
  | Movement.None => p

/-- `Player::update_score` (`player.rs` lines 167-183): add the points with
saturation at the `isize` bounds, and always reset the speed to `SPEED`. -/
def Player.update_score (p : Player) (additional_points : ℤ) : Player :=
  let p :=
    match checked_add p.score additional_points with
    | some new_score => { p with score := new_score }
    | Option.none =>
      if additional_points ≥ 0 then { p with score := ISIZE_MAX }
      else { p with score := ISIZE_MIN }
  { p with speed := SPEED }

/-- `Player::update_position` (`player.rs` lines 186-188). -/
def Player.update_position (p : Player) (new_field_width : ℕ) : Player :=
  { p with position := (p.field_side.get_x_position p.size.1 new_field_width, p.position.2) }

/-- The interval at which the ball's and the players' speeds are changed
(`field.rs`, `SPEED_CHANGE_INTERVAL`). -/
def SPEED_CHANGE_INTERVAL : ℚ := 10

/-- The amount by which the speeds of the ball and players are changed
(`field.rs`, `SPEED_CHANGE`). -/
def SPEED_CHANGE : ℚ := 10

/-- The keyboard keys the game reacts to; `Other` stands for every key hitting
the `_ => {}` arms of the source. -/
inductive Key
  | W
  | S
  | Up
  | Down
  | Other
deriving DecidableEq

/-- A `piston_window::Button`; `NonKeyboard` stands for the non-`Keyboard`
variants, which the field ignores. -/
inductive Button
  | Keyboard (key : Key)
  | NonKeyboard
deriving DecidableEq

/-- The field (`field.rs`, struct `Field`). The pair `players` holds
`players[0]` (the left player) as its first and `players[1]` (the right
player) as its second component. -/
structure Field where
  ball : Ball
  last_speed_change : ℚ
  players : Player × Player
  height : ℕ
  width : ℕ
deriving DecidableEq

/-- `Field::new` (`field.rs` lines 50-61). -/
def Field.new (size : ℕ × ℕ) (rng : RngDraws) : Field :=
  { ball := Ball.new size rng,
    last_speed_change := 0,
    players := (Player.new FieldSide.Left size.1, Player.new FieldSide.Right size.1),
    height := size.2,
    width := size.1 }

/-- `Field::get_player_scores` (`field.rs` lines 64-69). -/
def Field.get_player_scores (f : Field) : ℤ × ℤ :=
  (f.players.1.get_score, f.players.2.get_score)

/-- `Field::on_button_pressed` (`field.rs` lines 72-82). -/
def Field.on_button_pressed (f : Field) (button : Button) : Field :=
  match button with
  | Button.Keyboard key =>
    match key with
    | Key.W => { f with players := (f.players.1.set_movement Movement.Up, f.players.2) }
    | Key.S => { f with players := (f.players.1.set_movement Movement.Down, f.players.2) }
    | Key.Up => { f with players := (f.players.1, f.players.2.set_movement Movement.Up) }
    | Key.Down => { f with players := (f.players.1, f.players.2.set_movement Movement.Down) }
    | Key.Other => f
  | Button.NonKeyboard => f

/-- `Field::on_button_released` (`field.rs` lines 85-93): releasing `W` or `S`
stops the left player, releasing `Up` or `Down` stops the right player. -/
def Field.on_button_released (f : Field) (button : Button) : Field :=
  match button with
  | Button.Keyboard key =>
    match key with
    | Key.W => { f with players := (f.players.1.set_movement Movement.None, f.players.2) }
    | Key.S => { f with players := (f.players.1.set_movement Movement.None, f.players.2) }
    | Key.Up => { f with players := (f.players.1, f.players.2.set_movement Movement.None) }
    | Key.Down => { f with players := (f.players.1, f.players.2.set_movement Movement.None) }
    | Key.Other => f
  | Button.NonKeyboard => f

/-- `Field::on_resize` (`field.rs` lines 125-131): store the new size and
recompute each player's x-position from the new width. -/
def Field.on_resize (f : Field) (new_width new_height : ℕ) : Field :=
  { f with width := new_width, height := new_height,
           players := (f.players.1.update_position new_width,
                       f.players.2.update_position new_width) }

/-- `Field::update_scores` (`field.rs` lines 161-174): on an exit the other
side's player gets a point and a new ball is created from the fresh random
draws; within the game nothing changes. -/
def Field.update_scores (f : Field) (status : BallStatus) (rng : RngDraws) : Field :=
  match status with
  | BallStatus.WithinGame => f
  | BallStatus.LeftOnLeftSide =>
    let f := { f with players := (f.players.1, f.players.2.update_score 1) }
    { f with ball := Ball.new (f.width, f.height) rng }
  | BallStatus.LeftOnRightSide =>
    let f := { f with players := (f.players.1.update_score 1, f.players.2) }
    { f with ball := Ball.new (f.width, f.height) rng }

/-- The speed-change block of `Field::on_update` (`field.rs` lines 137-146):
accumulate `dt`; once the accumulator reaches `SPEED_CHANGE_INTERVAL`, reset
it and speed up the ball and both players by `SPEED_CHANGE`. -/
def Field.speed_change_step (f : Field) (dt : ℚ) : Field :=
  let lsc : ℚ := f.last_speed_change + dt
  if lsc ≥ SPEED_CHANGE_INTERVAL then
    { f with last_speed_change := 0,
             ball := f.ball.change_speed SPEED_CHANGE,
             players := (f.players.1.change_speed SPEED_CHANGE,
                         f.players.2.change_speed SPEED_CHANGE) }
  else
    { f with last_speed_change := lsc }

/-- `Field::on_update` (`field.rs` lines 134-158): apply the speed change if
due, update both players, update the ball against the players' bounding
boxes, and finally apply the scoring of the returned status. -/
def Field.on_update (f : Field) (dt : ℚ) (rng : RngDraws) : Field :=
  let f := f.speed_change_step dt
  let p0 := f.players.1.update dt f.height
  let p1 := f.players.2.update dt f.height
  let player_handles : List Box := [p0.get_bounding_box, p1.get_bounding_box]
  let updated := f.ball.update dt f.width f.height player_handles
  let f := { f with players := (p0, p1), ball := updated.1 }
  f.update_scores updated.2 rng

/-! Helper lemmas: `Ball::collide_with` only ever touches the speed, so the
position and the diameter survive the obstacle loop of `Ball::update`. -/

theorem collide_with_preserves_position (b : Ball) (np : ℚ × ℚ) (o : Box) :
    (b.collide_with np o).position = b.position := by
  unfold Ball.collide_with
  dsimp only
  split_ifs <;> rfl

theorem collide_with_preserves_diameter (b : Ball) (np : ℚ × ℚ) (o : Box) :
    (b.collide_with np o).diameter = b.diameter := by
  unfold Ball.collide_with
  dsimp only
  split_ifs <;> rfl

theorem foldl_collide_preserves_position (l : List Box) (b : Ball) (np : ℚ × ℚ) :
    (l.foldl (fun acc obstacle => acc.collide_with np obstacle) b).position = b.position := by
  induction l generalizing b with
  | nil => rfl
  | cons o l ih => rw [List.foldl_cons, ih, collide_with_preserves_position]

theorem foldl_collide_preserves_diameter (l : List Box) (b : Ball) (np : ℚ × ℚ) :
    (l.foldl (fun acc obstacle => acc.collide_with np obstacle) b).diameter = b.diameter := by
  induction l generalizing b with
  | nil => rfl
  | cons o l ih => rw [List.foldl_cons, ih, collide_with_preserves_diameter]

/-- Claim C3: a ball at position `(65, 40)` with speed `(-100, 100)`, updated
with `dt = 0.1` in a 100 by 100 field against the single paddle bounding box
`[45, 45, 55, 55]`, returns `WithinGame` with resulting speed `(100, 100)` and
resulting position `(75, 50)`. -/
theorem collision_reflection :
    Ball.update ⟨10, (65, 40), (-100, 100)⟩ (1 / 10) 100 100 [⟨45, 45, 55, 55⟩] =
      (⟨10, (75, 50), (100, 100)⟩, BallStatus.WithinGame) := by
  norm_num [Ball.update, Ball.collide_with, List.foldl_cons, List.foldl_nil]

/-- Claim C10: for every window size, `Ball::new` sets each position coordinate
to the centring value (half the dimension minus the radius), clamped up to
`0.0` when that value would be negative, so the constructed position is never
negative on either axis. -/
theorem ball_new_centred_nonneg (w h : ℕ) (rng : RngDraws) :
    (Ball.new (w, h) rng).position.1
        = (if (w : ℚ) / 2 - 5 < 0 then 0 else (w : ℚ) / 2 - 5) ∧
    (Ball.new (w, h) rng).position.2
        = (if (h : ℚ) / 2 - 5 < 0 then 0 else (h : ℚ) / 2 - 5) ∧
    0 ≤ (Ball.new (w, h) rng).position.1 ∧
    0 ≤ (Ball.new (w, h) rng).position.2 := by
  refine ⟨rfl, rfl, ?_, ?_⟩ <;>
  · dsimp only [Ball.new]
    split_ifs with h1 <;> linarith

/-- Claim C6: for every starting score in the `isize` range and every delta,
`Player::update_score` sets the score to the saturating sum — clamping to the
representable minimum or maximum instead of wrapping — and in every call,
regardless of the sign or value of the delta, resets the player's speed to
`150.0`. -/
theorem score_saturation (p : Player) (delta : ℤ)
    (hlo : ISIZE_MIN ≤ p.score) (hhi : p.score ≤ ISIZE_MAX) :
    (p.update_score delta).score = max ISIZE_MIN (min ISIZE_MAX (p.score + delta)) ∧
    (p.update_score delta).speed = 150 := by
  unfold Player.update_score checked_add
  by_cases h1 : ISIZE_MIN ≤ p.score + delta ∧ p.score + delta ≤ ISIZE_MAX
  · rw [if_pos h1]
    dsimp only
    refine ⟨?_, rfl⟩
    simp only [ISIZE_MIN, ISIZE_MAX] at *
    omega
  · rw [if_neg h1]
    dsimp only
    by_cases h2 : delta ≥ 0
    · rw [if_pos h2]
      dsimp only
      refine ⟨?_, rfl⟩
      simp only [ISIZE_MIN, ISIZE_MAX] at *
      omega
    · rw [if_neg h2]
      dsimp only
      refine ⟨?_, rfl⟩
      simp only [ISIZE_MIN, ISIZE_MAX] at *
      omega

/-- Witness for C6 at a concrete input: a player with score `41` and
speed `99` gets score `48` and speed `150` after `update_score 7`. -/
theorem score_saturation_witness :
    ISIZE_MIN ≤ ((⟨FieldSide.Left, Movement.None, (10, 0), 41, (10, 60), 99⟩ : Player)).score ∧
    ((⟨FieldSide.Left, Movement.None, (10, 0), 41, (10, 60), 99⟩ : Player)).score ≤ ISIZE_MAX ∧
    ((⟨FieldSide.Left, Movement.None, (10, 0), 41, (10, 60), 99⟩ : Player).update_score 7).score
      = max ISIZE_MIN (min ISIZE_MAX (41 + 7)) ∧
    ((⟨FieldSide.Left, Movement.None, (10, 0), 41, (10, 60), 99⟩ : Player).update_score 7).speed
      = 150 := by
  have h1 : ISIZE_MIN ≤
      ((⟨FieldSide.Left, Movement.None, (10, 0), 41, (10, 60), 99⟩ : Player)).score := by
    simp only [ISIZE_MIN]
    omega
  have h2 : ((⟨FieldSide.Left, Movement.None, (10, 0), 41, (10, 60), 99⟩ : Player)).score
      ≤ ISIZE_MAX := by
    simp only [ISIZE_MAX]
    omega
  exact ⟨h1, h2,
    (score_saturation ⟨FieldSide.Left, Movement.None, (10, 0), 41, (10, 60), 99⟩ 7 h1 h2).1,
    (score_saturation ⟨FieldSide.Left, Movement.None, (10, 0), 41, (10, 60), 99⟩ 7 h1 h2).2⟩

/-- Claim C7: for every positive `dt`, every paddle with nonnegative
y-position and nonnegative speed (the paddle invariants of the data model),
and every field height leaving room for the paddle: `Player::update` with
movement `Up` keeps `position.y` within `[0, starting y]`; with `Down` the
paddle moves down while its bottom edge stays within the field; with `None`
the position is unchanged. -/
theorem paddle_clamping (p : Player) (dt : ℚ) (height : ℕ)
    (hdt : 0 < dt) (hy : 0 ≤ p.position.2) (hs : 0 ≤ p.speed)
    (hh : p.position.2 + p.size.2 ≤ (height : ℚ)) :
    (p.movement = Movement.Up →
      0 ≤ (p.update dt height).position.2 ∧
      (p.update dt height).position.2 ≤ p.position.2) ∧
    (p.movement = Movement.Down →
      p.position.2 ≤ (p.update dt height).position.2 ∧
      (p.update dt height).position.2 + p.size.2 ≤ (height : ℚ)) ∧
    (p.movement = Movement.None →
      (p.update dt height).position = p.position) := by
  have hsdt : 0 ≤ p.speed * dt := mul_nonneg hs (le_of_lt hdt)
  refine ⟨fun hm => ?_, fun hm => ?_, fun hm => ?_⟩
  · unfold Player.update
    rw [hm]
    dsimp only
    split_ifs <;> constructor <;> linarith
  · unfold Player.update
    rw [hm]
    dsimp only
    split_ifs <;> constructor <;> linarith
  · unfold Player.update
    rw [hm]

/-- Witness for C7 at a concrete input: a paddle at `y = 20` of height `60`
moving `Up` with speed `150` in a field of height `100` and `dt = 0.1`. -/
theorem paddle_clamping_witness :
    (0 : ℚ) < 1 / 10 ∧
    (0 : ℚ) ≤ ((⟨FieldSide.Left, Movement.Up, (10, 20), 0, (10, 60), 150⟩ : Player)).position.2 ∧
    (0 : ℚ) ≤ ((⟨FieldSide.Left, Movement.Up, (10, 20), 0, (10, 60), 150⟩ : Player)).speed ∧
    ((⟨FieldSide.Left, Movement.Up, (10, 20), 0, (10, 60), 150⟩ : Player)).position.2 +
      ((⟨FieldSide.Left, Movement.Up, (10, 20), 0, (10, 60), 150⟩ : Player)).size.2 ≤
      ((100 : ℕ) : ℚ) ∧
    (((⟨FieldSide.Left, Movement.Up, (10, 20), 0, (10, 60), 150⟩ : Player)).movement
        = Movement.Up →
      0 ≤ ((⟨FieldSide.Left, Movement.Up, (10, 20), 0, (10, 60), 150⟩ : Player).update
            (1 / 10) 100).position.2 ∧
      ((⟨FieldSide.Left, Movement.Up, (10, 20), 0, (10, 60), 150⟩ : Player).update
            (1 / 10) 100).position.2 ≤
        ((⟨FieldSide.Left, Movement.Up, (10, 20), 0, (10, 60), 150⟩ : Player)).position.2) := by
  have h1 : (0 : ℚ) < 1 / 10 := by norm_num
  have h2 : (0 : ℚ) ≤
      ((⟨FieldSide.Left, Movement.Up, (10, 20), 0, (10, 60), 150⟩ : Player)).position.2 := by
    norm_num
  have h3 : (0 : ℚ) ≤
      ((⟨FieldSide.Left, Movement.Up, (10, 20), 0, (10, 60), 150⟩ : Player)).speed := by
    norm_num
  have h4 : ((⟨FieldSide.Left, Movement.Up, (10, 20), 0, (10, 60), 150⟩ : Player)).position.2 +
      ((⟨FieldSide.Left, Movement.Up, (10, 20), 0, (10, 60), 150⟩ : Player)).size.2 ≤
      ((100 : ℕ) : ℚ) := by
    norm_num
  exact ⟨h1, h2, h3, h4,
    (paddle_clamping ⟨FieldSide.Left, Movement.Up, (10, 20), 0, (10, 60), 150⟩
      (1 / 10) 100 h1 h2 h3 h4).1⟩

/-- Claim C9: `Field::on_resize` updates only the stored width and height and
each paddle's x-position (recomputed from its side and the new width); each
paddle's y-position, movement, score, speed, side and size, and the entire
ball state (and the speed-change accumulator) are unchanged by the resize. -/
theorem resize_frame (f : Field) (new_width new_height : ℕ) :
    (f.on_resize new_width new_height).width = new_width ∧
    (f.on_resize new_width new_height).height = new_height ∧
    (f.on_resize new_width new_height).ball = f.ball ∧
    (f.on_resize new_width new_height).last_speed_change = f.last_speed_change ∧
    (f.on_resize new_width new_height).players.1.position.1
      = f.players.1.field_side.get_x_position f.players.1.size.1 new_width ∧
    (f.on_resize new_width new_height).players.2.position.1
      = f.players.2.field_side.get_x_position f.players.2.size.1 new_width ∧
    (f.on_resize new_width new_height).players.1.position.2 = f.players.1.position.2 ∧
    (f.on_resize new_width new_height).players.1.movement = f.players.1.movement ∧
    (f.on_resize new_width new_height).players.1.score = f.players.1.score ∧
    (f.on_resize new_width new_height).players.1.speed = f.players.1.speed ∧
    (f.on_resize new_width new_height).players.1.field_side = f.players.1.field_side ∧
    (f.on_resize new_width new_height).players.1.size = f.players.1.size ∧
    (f.on_resize new_width new_height).players.2.position.2 = f.players.2.position.2 ∧
    (f.on_resize new_width new_height).players.2.movement = f.players.2.movement ∧
    (f.on_resize new_width new_height).players.2.score = f.players.2.score ∧
    (f.on_resize new_width new_height).players.2.speed = f.players.2.speed ∧
    (f.on_resize new_width new_height).players.2.field_side = f.players.2.field_side ∧
    (f.on_resize new_width new_height).players.2.size = f.players.2.size := by
  unfold Field.on_resize Player.update_position
  dsimp only
  exact ⟨rfl, rfl, rfl, rfl, rfl, rfl, rfl, rfl, rfl, rfl, rfl, rfl, rfl, rfl, rfl, rfl,
    rfl, rfl⟩

/-- Claim C1: for every field size with `height` at least the ball's diameter,
every ball state, `dt` and obstacle list, if `Ball::update` returns
`WithinGame` then afterwards `0 <= position.y <= height - diameter`. -/
theorem ball_containment (b : Ball) (dt : ℚ) (width height : ℕ) (obstacles : List Box)
    (hh : b.diameter ≤ (height : ℚ)) :
    (b.update dt width height obstacles).2 = BallStatus.WithinGame →
    0 ≤ (b.update dt width height obstacles).1.position.2 ∧
    (b.update dt width height obstacles).1.position.2 ≤ (height : ℚ) - b.diameter := by
  intro hw
  unfold Ball.update at hw ⊢
  dsimp only at hw ⊢
  rw [foldl_collide_preserves_position, foldl_collide_preserves_diameter] at hw ⊢
  split_ifs at hw ⊢ <;>
    first
      | (simp at hw; done)
      | (dsimp only at *
         try simp only [foldl_collide_preserves_position,
           foldl_collide_preserves_diameter] at *
         constructor <;> linarith)

/-- Witness for C1 at a concrete input: a `10`-diameter ball at `(45, 45)`
with speed `(100, 100)` in a `100 x 100` field, `dt = 0.1`, no obstacles. -/
theorem ball_containment_witness :
    ((⟨10, (45, 45), (100, 100)⟩ : Ball)).diameter ≤ ((100 : ℕ) : ℚ) ∧
    (Ball.update ⟨10, (45, 45), (100, 100)⟩ (1 / 10) 100 100 []).2 = BallStatus.WithinGame ∧
    (0 ≤ (Ball.update ⟨10, (45, 45), (100, 100)⟩ (1 / 10) 100 100 []).1.position.2 ∧
      (Ball.update ⟨10, (45, 45), (100, 100)⟩ (1 / 10) 100 100 []).1.position.2 ≤
        ((100 : ℕ) : ℚ) - ((⟨10, (45, 45), (100, 100)⟩ : Ball)).diameter) := by
  have hh : ((⟨10, (45, 45), (100, 100)⟩ : Ball)).diameter ≤ ((100 : ℕ) : ℚ) := by
    norm_num
  have hw : (Ball.update ⟨10, (45, 45), (100, 100)⟩ (1 / 10) 100 100 []).2
      = BallStatus.WithinGame := by
    norm_num [Ball.update, List.foldl_nil]
  exact ⟨hh, hw, ball_containment ⟨10, (45, 45), (100, 100)⟩ (1 / 10) 100 100 [] hh hw⟩

/-- Claim C2: a ball with `position.x = 5.0` and speed `(-100.0, 100.0)` (any
in-bounds `y`), updated with `dt = 0.1` in a field of width `100` with no
obstacles, returns `LeftOnLeftSide` and neither its position nor its speed is
changed by that call; symmetrically, a ball that is not leaving on the left
side and whose right edge would cross the field width returns
`LeftOnRightSide` with no mutation. -/
theorem exit_detection :
    (∀ (y : ℚ) (height : ℕ), 0 ≤ y → y ≤ (height : ℚ) - 10 →
      Ball.update ⟨10, (5, y), (-100, 100)⟩ (1 / 10) 100 height []
        = (⟨10, (5, y), (-100, 100)⟩, BallStatus.LeftOnLeftSide)) ∧
    (∀ (b : Ball) (dt : ℚ) (width height : ℕ),
      ¬ b.position.1 + b.speed.1 * dt < 0 →
      b.position.1 + b.diameter + b.speed.1 * dt > (width : ℚ) →
      Ball.update b dt width height [] = (b, BallStatus.LeftOnRightSide)) := by
  constructor
  · intro y height hy hyb
    norm_num [Ball.update, List.foldl_nil]
  · intro b dt width height h1 h2
    unfold Ball.update
    dsimp only [List.foldl_nil]
    rw [if_neg h1, if_pos h2]

/-- Witness for C2 at concrete inputs: the ball at `(5, 45)` with speed
`(-100, 100)` leaves on the left side, and the ball at `(95, 45)` with speed
`(100, 100)` leaves on the right side, both unchanged. -/
theorem exit_detection_witness :
    ((0 : ℚ) ≤ 45 ∧ (45 : ℚ) ≤ ((100 : ℕ) : ℚ) - 10 ∧
      Ball.update ⟨10, (5, 45), (-100, 100)⟩ (1 / 10) 100 100 []
        = (⟨10, (5, 45), (-100, 100)⟩, BallStatus.LeftOnLeftSide)) ∧
    ((¬ ((⟨10, (95, 45), (100, 100)⟩ : Ball)).position.1 +
          ((⟨10, (95, 45), (100, 100)⟩ : Ball)).speed.1 * (1 / 10) < 0) ∧
      ((⟨10, (95, 45), (100, 100)⟩ : Ball)).position.1 +
          ((⟨10, (95, 45), (100, 100)⟩ : Ball)).diameter +
          ((⟨10, (95, 45), (100, 100)⟩ : Ball)).speed.1 * (1 / 10) > ((100 : ℕ) : ℚ) ∧
      Ball.update ⟨10, (95, 45), (100, 100)⟩ (1 / 10) 100 100 []
        = (⟨10, (95, 45), (100, 100)⟩, BallStatus.LeftOnRightSide)) := by
  have hy : (0 : ℚ) ≤ 45 := by norm_num
  have hyb : (45 : ℚ) ≤ ((100 : ℕ) : ℚ) - 10 := by norm_num
  have h1 : ¬ ((⟨10, (95, 45), (100, 100)⟩ : Ball)).position.1 +
      ((⟨10, (95, 45), (100, 100)⟩ : Ball)).speed.1 * (1 / 10) < 0 := by norm_num
  have h2 : ((⟨10, (95, 45), (100, 100)⟩ : Ball)).position.1 +
      ((⟨10, (95, 45), (100, 100)⟩ : Ball)).diameter +
      ((⟨10, (95, 45), (100, 100)⟩ : Ball)).speed.1 * (1 / 10) > ((100 : ℕ) : ℚ) := by
    norm_num
  exact ⟨⟨hy, hyb, exit_detection.1 45 100 hy hyb⟩,
    ⟨h1, h2, exit_detection.2 ⟨10, (95, 45), (100, 100)⟩ (1 / 10) 100 100 h1 h2⟩⟩

/-- Claim C5 (with `Ball::change_speed` modelled from the spec): on the
`on_update` tick in which the accumulator `last_speed_change` reaches `10.0`
seconds, the speed-change block of `Field::on_update` resets the accumulator
to `0` and increases both paddles' speeds and the ball's speed (its magnitude
on each axis) by exactly `10.0`. -/
theorem periodic_speed_up (f : Field) (dt : ℚ)
    (h : SPEED_CHANGE_INTERVAL ≤ f.last_speed_change + dt) :
    (f.speed_change_step dt).last_speed_change = 0 ∧
    (f.speed_change_step dt).players.1.speed = f.players.1.speed + 10 ∧
    (f.speed_change_step dt).players.2.speed = f.players.2.speed + 10 ∧
    |(f.speed_change_step dt).ball.speed.1| = |f.ball.speed.1| + 10 ∧
    |(f.speed_change_step dt).ball.speed.2| = |f.ball.speed.2| + 10 := by
  unfold Field.speed_change_step Player.change_speed Ball.change_speed
  dsimp only
  split_ifs with hc h1 h2 <;>
    first
      | (exact absurd h (by exact hc))
      | (refine ⟨rfl, rfl, rfl, ?_, ?_⟩ <;>
          · simp only [SPEED_CHANGE] at *
            first
              | (rw [abs_of_nonneg (by linarith), abs_of_nonneg (by linarith)])
              | (rw [abs_of_neg (by linarith), abs_of_neg (by linarith)]; ring))

/-- Witness for C5 at a concrete input: a field with accumulator `5` updated
with `dt = 6` fires the speed change. -/
theorem periodic_speed_up_witness :
    SPEED_CHANGE_INTERVAL ≤ (5 : ℚ) + 6 ∧
    ((Field.speed_change_step
        ⟨⟨10, (45, 45), (100, -100)⟩, 5,
          (⟨FieldSide.Left, Movement.None, (10, 0), 0, (10, 60), 150⟩,
           ⟨FieldSide.Right, Movement.None, (80, 0), 0, (10, 60), 150⟩),
          100, 100⟩ 6).last_speed_change = 0 ∧
      (Field.speed_change_step
        ⟨⟨10, (45, 45), (100, -100)⟩, 5,
          (⟨FieldSide.Left, Movement.None, (10, 0), 0, (10, 60), 150⟩,
           ⟨FieldSide.Right, Movement.None, (80, 0), 0, (10, 60), 150⟩),
          100, 100⟩ 6).players.1.speed = 150 + 10 ∧
      (Field.speed_change_step
        ⟨⟨10, (45, 45), (100, -100)⟩, 5,
          (⟨FieldSide.Left, Movement.None, (10, 0), 0, (10, 60), 150⟩,
           ⟨FieldSide.Right, Movement.None, (80, 0), 0, (10, 60), 150⟩),
          100, 100⟩ 6).players.2.speed = 150 + 10 ∧
      |(Field.speed_change_step
        ⟨⟨10, (45, 45), (100, -100)⟩, 5,
          (⟨FieldSide.Left, Movement.None, (10, 0), 0, (10, 60), 150⟩,
           ⟨FieldSide.Right, Movement.None, (80, 0), 0, (10, 60), 150⟩),
          100, 100⟩ 6).ball.speed.1| = |(100 : ℚ)| + 10 ∧
      |(Field.speed_change_step
        ⟨⟨10, (45, 45), (100, -100)⟩, 5,
          (⟨FieldSide.Left, Movement.None, (10, 0), 0, (10, 60), 150⟩,
           ⟨FieldSide.Right, Movement.None, (80, 0), 0, (10, 60), 150⟩),
          100, 100⟩ 6).ball.speed.2| = |(-100 : ℚ)| + 10) := by
  have h : SPEED_CHANGE_INTERVAL ≤ (5 : ℚ) + 6 := by norm_num [SPEED_CHANGE_INTERVAL]
  exact ⟨h, periodic_speed_up
    ⟨⟨10, (45, 45), (100, -100)⟩, 5,
      (⟨FieldSide.Left, Movement.None, (10, 0), 0, (10, 60), 150⟩,
       ⟨FieldSide.Right, Movement.None, (80, 0), 0, (10, 60), 150⟩),
      100, 100⟩ 6 h⟩

/-- Counterexample to C4 as stated: in a field whose right player already has
score `isize::MAX`, a `LeftOnLeftSide` status does not increase that score by
`1` — the saturating `update_score` leaves it at `isize::MAX`. -/
theorem scoring_increment_counterexample :
    ¬ ((Field.update_scores
        ⟨⟨10, (45, 45), (100, 100)⟩, 0,
          (⟨FieldSide.Left, Movement.None, (10, 0), 0, (10, 60), 150⟩,
           ⟨FieldSide.Right, Movement.None, (80, 0), ISIZE_MAX, (10, 60), 150⟩),
          100, 100⟩
        BallStatus.LeftOnLeftSide ⟨120, 130, false, false⟩).players.2.score
      = ISIZE_MAX + 1) := by
  norm_num [Field.update_scores, Player.update_score, checked_add, ISIZE_MAX, ISIZE_MIN]

/-- Claim C4 (amended): for every field state whose players' scores are valid
`isize` values, when the ball's update returns `LeftOnLeftSide`, the right
player's (index 1) score becomes the saturating sum of the old score and `1`
(so it increases by exactly `1` whenever it is below `isize::MAX`), the left
player is untouched and the ball is replaced by a freshly constructed,
re-centred ball built by `Ball::new` from the field's current size and the
fresh random draws — not the stale exited ball; `LeftOnRightSide` does the
same with the left player's (index 0) score; `WithinGame` changes nothing at
all. -/
theorem scoring_replaces_ball (f : Field) (rng : RngDraws)
    (h0 : ISIZE_MIN ≤ f.players.1.score) (h1 : ISIZE_MIN ≤ f.players.2.score) :
    ((f.update_scores BallStatus.LeftOnLeftSide rng).players.2.score
        = min ISIZE_MAX (f.players.2.score + 1) ∧
      (f.update_scores BallStatus.LeftOnLeftSide rng).players.1 = f.players.1 ∧
      (f.update_scores BallStatus.LeftOnLeftSide rng).ball
        = Ball.new (f.width, f.height) rng) ∧
    ((f.update_scores BallStatus.LeftOnRightSide rng).players.1.score
        = min ISIZE_MAX (f.players.1.score + 1) ∧
      (f.update_scores BallStatus.LeftOnRightSide rng).players.2 = f.players.2 ∧
      (f.update_scores BallStatus.LeftOnRightSide rng).ball
        = Ball.new (f.width, f.height) rng) ∧
    f.update_scores BallStatus.WithinGame rng = f := by
  unfold Field.update_scores Player.update_score checked_add
  dsimp only
  refine ⟨⟨?_, rfl, rfl⟩, ⟨?_, rfl, rfl⟩, rfl⟩
  · split_ifs with hc <;> dsimp only <;> simp only [ISIZE_MIN, ISIZE_MAX] at * <;> omega
  · split_ifs with hc <;> dsimp only <;> simp only [ISIZE_MIN, ISIZE_MAX] at * <;> omega

/-- Witness for C4 (amended) at a concrete input: a fresh `200 x 100` field
with both scores `0`. -/
theorem scoring_replaces_ball_witness :
    ISIZE_MIN ≤ ((Field.new (200, 100) ⟨120, 130, false, false⟩)).players.1.score ∧
    ISIZE_MIN ≤ ((Field.new (200, 100) ⟨120, 130, false, false⟩)).players.2.score ∧
    (((Field.new (200, 100) ⟨120, 130, false, false⟩).update_scores
          BallStatus.LeftOnLeftSide ⟨110, 140, true, false⟩).players.2.score
        = min ISIZE_MAX
            ((Field.new (200, 100) ⟨120, 130, false, false⟩).players.2.score + 1) ∧
      ((Field.new (200, 100) ⟨120, 130, false, false⟩).update_scores
          BallStatus.LeftOnLeftSide ⟨110, 140, true, false⟩).players.1
        = (Field.new (200, 100) ⟨120, 130, false, false⟩).players.1 ∧
      ((Field.new (200, 100) ⟨120, 130, false, false⟩).update_scores
          BallStatus.LeftOnLeftSide ⟨110, 140, true, false⟩).ball
        = Ball.new ((Field.new (200, 100) ⟨120, 130, false, false⟩).width,
            (Field.new (200, 100) ⟨120, 130, false, false⟩).height)
            ⟨110, 140, true, false⟩) := by
  have h0 : ISIZE_MIN ≤
      ((Field.new (200, 100) ⟨120, 130, false, false⟩)).players.1.score := by
    simp only [Field.new, Player.new, ISIZE_MIN]
    omega
  have h1 : ISIZE_MIN ≤
      ((Field.new (200, 100) ⟨120, 130, false, false⟩)).players.2.score := by
    simp only [Field.new, Player.new, ISIZE_MIN]
    omega
  exact ⟨h0, h1,
    (scoring_replaces_ball (Field.new (200, 100) ⟨120, 130, false, false⟩)
      ⟨110, 140, true, false⟩ h0 h1).1⟩

/-- Counterexample to C8 as stated: the left paddle is commanded `Down` (the
`S` key's movement); releasing the other, non-active key `W` of the same
paddle does stop the commanded movement — afterwards it is `None`, not the
claimed unchanged `Down`. -/
theorem key_release_counterexample :
    ¬ ((Field.on_button_released
        ⟨⟨10, (45, 45), (100, 100)⟩, 0,
          (⟨FieldSide.Left, Movement.Down, (10, 0), 0, (10, 60), 150⟩,
           ⟨FieldSide.Right, Movement.None, (80, 0), 0, (10, 60), 150⟩),
          100, 100⟩
        (Button.Keyboard Key.W)).players.1.movement = Movement.Down) := by
  simp only [Field.on_button_released, Player.set_movement]
  intro hcontra
  cases hcontra

/-- Claim C8 (amended): releasing either of a paddle's two movement keys —
whether or not that key commanded the paddle's current movement — resets that
paddle's movement to `None` and leaves the other paddle's movement unchanged;
in particular releasing the currently active key also stops the movement. -/
theorem key_release_resets (f : Field) (key : Key) :
    ((key = Key.W ∨ key = Key.S) →
      (f.on_button_released (Button.Keyboard key)).players.1.movement = Movement.None ∧
      (f.on_button_released (Button.Keyboard key)).players.2.movement
        = f.players.2.movement) ∧
    ((key = Key.Up ∨ key = Key.Down) →
      (f.on_button_released (Button.Keyboard key)).players.2.movement = Movement.None ∧
      (f.on_button_released (Button.Keyboard key)).players.1.movement
        = f.players.1.movement) := by
  constructor
  · rintro (rfl | rfl) <;> exact ⟨rfl, rfl⟩
  · rintro (rfl | rfl) <;> exact ⟨rfl, rfl⟩

/-- Witness for C8 (amended) at a concrete input: releasing `W` stops the left
paddle of a fresh field, releasing `Up` stops the right paddle. -/
theorem key_release_resets_witness :
    ((Key.W = Key.W ∨ Key.W = Key.S) ∧
      ((Field.new (200, 100) ⟨120, 130, false, false⟩).on_button_released
          (Button.Keyboard Key.W)).players.1.movement = Movement.None ∧
      ((Field.new (200, 100) ⟨120, 130, false, false⟩).on_button_released
          (Button.Keyboard Key.W)).players.2.movement
        = (Field.new (200, 100) ⟨120, 130, false, false⟩).players.2.movement) ∧
    ((Key.Up = Key.Up ∨ Key.Up = Key.Down) ∧
      ((Field.new (200, 100) ⟨120, 130, false, false⟩).on_button_released
          (Button.Keyboard Key.Up)).players.2.movement = Movement.None ∧
      ((Field.new (200, 100) ⟨120, 130, false, false⟩).on_button_released
          (Button.Keyboard Key.Up)).players.1.movement
        = (Field.new (200, 100) ⟨120, 130, false, false⟩).players.1.movement) := by
  exact ⟨⟨Or.inl rfl,
      (key_release_resets (Field.new (200, 100) ⟨120, 130, false, false⟩) Key.W).1
        (Or.inl rfl)⟩,
    ⟨Or.inl rfl,
      (key_release_resets (Field.new (200, 100) ⟨120, 130, false, false⟩) Key.Up).2
        (Or.inl rfl)⟩⟩

end Mief
